import Mathlib

/-!
Verification of the span-extraction core of the BERT question-answering
notebook (`answer_question` in `BERT_QA_Lecture_and_Example.ipynb`).

The notebook's only non-trivial logic is:

    start_index = torch.argmax(start_scores)
    end_index = torch.argmax(end_scores) + 1
    answer = tokenizer.convert_tokens_to_string(
        tokenizer.convert_ids_to_tokens(input_ids[start_index:end_index]))

Scores are modelled as rationals, the score tensors as lists, and
`torch.argmax` by its documented semantics: the index of the first
occurrence of the maximum value.  Detokenization is external to the core
and is modelled as an arbitrary function parameter.
-/

namespace BertQA

/-- Model of `torch.argmax` on a one-dimensional tensor, by its documented
semantics: the index of the maximum value, with ties broken in favour of
the lowest index (the first maximal value).  On the empty list (where the
library would raise) we return 0; the callers below only use it on
non-empty lists. -/
def argmax : List ℚ → Nat
  | [] => 0
  | [_] => 0
  | x :: y :: t =>
      let j := argmax (y :: t)
      if (y :: t).getD j 0 ≤ x then 0 else j + 1

/-- Embedding of the span computation and slice performed by
`answer_question`: `start_index = argmax(start_scores)`,
`end_index = argmax(end_scores) + 1`, and the Python slice
`input_ids[start_index:end_index]`.  Returns the triple
`(start_index, end_index, sliced ids)`. -/
def answer_question_core (input_ids : List Int) (start_scores end_scores : List ℚ) :
    Nat × Nat × List Int :=
  let start_index := argmax start_scores
  let end_index := argmax end_scores + 1
  (start_index, end_index, (input_ids.take end_index).drop start_index)

/-- Embedding of the full `answer_question` return value: the sliced ids
are handed to the external detokenizer (`convert_ids_to_tokens` followed
by `convert_tokens_to_string`), modelled as an arbitrary function
`detok`. -/
def answer_question (detok : List Int → String) (input_ids : List Int)
    (start_scores end_scores : List ℚ) : String :=
  detok (answer_question_core input_ids start_scores end_scores).2.2

/-- Modelled from the spec: the `extract_span` contract of §4.1/§7 with its
`InvalidInput` failure condition.  The notebook itself contains no such
validation (its three sequences always agree by construction, so the check
is code missing from the source); the definition follows the spec's words:
fail with `InvalidInput` when N = 0 or when the three sequence lengths
disagree, otherwise return the argmax pair. -/
inductive SpanError where
  | InvalidInput
deriving DecidableEq, Repr

/-- Modelled from the spec: `extract_span(token_ids, start_scores,
end_scores)` returns `(start_index, end_index_exclusive)` or fails with
`InvalidInput` exactly under the spec's stated conditions. -/
def extract_span (token_ids : List Int) (start_scores end_scores : List ℚ) :
    Except SpanError (Nat × Nat) :=
  if token_ids.length = 0 ∨
      start_scores.length ≠ token_ids.length ∨
      end_scores.length ≠ token_ids.length then
    .error .InvalidInput
  else
    .ok (argmax start_scores, argmax end_scores + 1)

/-! ### Properties of `argmax` -/

/-- `argmax` always lands inside a non-empty list. -/
theorem argmax_lt_length (l : List ℚ) (h : l ≠ []) : argmax l < l.length := by
  induction l with
  | nil => cases h rfl
  | cons x t ih =>
      cases t with
      | nil => simp [argmax]
      | cons y u =>
          rw [argmax]
          split
          · simp
          · have := ih (by simp)
            simpa [Nat.succ_lt_succ_iff] using this

/-- Unfolding equation for `argmax` on a list of two or more entries. -/
theorem argmax_cons₂ (x y : ℚ) (u : List ℚ) :
    argmax (x :: y :: u) =
      if (y :: u).getD (argmax (y :: u)) 0 ≤ x then 0 else argmax (y :: u) + 1 :=
  rfl

/-- The value at `argmax l` dominates every entry of `l`. -/
theorem argmax_is_max (l : List ℚ) (j : Nat) (hj : j < l.length) :
    l.getD j 0 ≤ l.getD (argmax l) 0 := by
  induction l generalizing j with
  | nil => simp at hj
  | cons x t ih =>
      cases t with
      | nil =>
          have hj0 : j = 0 := by
            simp only [List.length_cons, List.length_nil] at hj
            omega
          subst hj0
          exact le_refl _
      | cons y u =>
          by_cases hc : (y :: u).getD (argmax (y :: u)) 0 ≤ x
          · rw [argmax_cons₂, if_pos hc]
            cases j with
            | zero => exact le_refl _
            | succ k =>
                have hk : k < (y :: u).length := by
                  simp only [List.length_cons] at hj ⊢
                  omega
                rw [List.getD_cons_succ, List.getD_cons_zero]
                exact le_trans (ih k hk) hc
          · rw [argmax_cons₂, if_neg hc, List.getD_cons_succ]
            cases j with
            | zero =>
                rw [List.getD_cons_zero]
                exact le_of_lt (lt_of_not_le hc)
            | succ k =>
                have hk : k < (y :: u).length := by
                  simp only [List.length_cons] at hj ⊢
                  omega
                rw [List.getD_cons_succ]
                exact ih k hk

/-- Entries strictly before `argmax l` are strictly below the maximum:
`argmax` returns the first occurrence of the maximum value. -/
theorem argmax_first_occurrence (l : List ℚ) (j : Nat) (hj : j < argmax l) :
    l.getD j 0 < l.getD (argmax l) 0 := by
  induction l generalizing j with
  | nil => simp [argmax] at hj
  | cons x t ih =>
      cases t with
      | nil => simp [argmax] at hj
      | cons y u =>
          by_cases hc : (y :: u).getD (argmax (y :: u)) 0 ≤ x
          · rw [argmax_cons₂, if_pos hc] at hj
            omega
          · rw [argmax_cons₂, if_neg hc] at hj ⊢
            rw [List.getD_cons_succ]
            cases j with
            | zero =>
                rw [List.getD_cons_zero]
                exact lt_of_not_le hc
            | succ k =>
                have hk : k < argmax (y :: u) := by omega
                rw [List.getD_cons_succ]
                exact ih k hk

/-! ### Claim theorems -/

/-- C1: whenever the (first-occurrence) argmax of the end scores is at or
before the argmax of the start scores, the span extractor still returns the
raw `(argmax start_scores, argmax end_scores + 1)` pair — it performs no
validation that `start_index < end_index_exclusive` and raises no error —
and when the pair is inverted (`start ≥ end`) the subsequent slice is
empty. -/
theorem C1_no_span_validation (input_ids : List Int) (ss es : List ℚ)
    (h : argmax es ≤ argmax ss) :
    answer_question_core input_ids ss es =
      (argmax ss, argmax es + 1, (input_ids.take (argmax es + 1)).drop (argmax ss)) ∧
    (argmax es < argmax ss → (answer_question_core input_ids ss es).2.2 = []) := by
  constructor
  · rfl
  · intro hlt
    show (input_ids.take (argmax es + 1)).drop (argmax ss) = []
    apply List.drop_eq_nil_of_le
    have hle : (input_ids.take (argmax es + 1)).length ≤ argmax es + 1 :=
      List.length_take_le _ _
    omega

/-- Witness for C1: the spec's degenerate example.  With N = 3,
start scores `[0.1, 0.2, 0.9]` (argmax 2) and end scores `[0.9, 0.2, 0.1]`
(argmax 0), the extractor returns the raw inverted pair `(2, 1)` and the
slice is empty. -/
theorem C1_no_span_validation_witness :
    answer_question_core [10, 20, 30] [0.1, 0.2, 0.9] [0.9, 0.2, 0.1] = (2, 1, []) := by
  have h :=
    (C1_no_span_validation [10, 20, 30] [0.1, 0.2, 0.9] [0.9, 0.2, 0.1]
      (by norm_num [argmax])).1
  rw [h]
  norm_num [argmax]

/-- C2 (spec-modelled `extract_span`): the extractor fails with
`InvalidInput` exactly when N = 0 or when the three sequence lengths
disagree, and in every other case it returns the argmax pair without
error — the error is the component's only failure mode and no span is
computed alongside it. -/
theorem C2_invalid_input_iff (token_ids : List Int) (ss es : List ℚ) :
    (extract_span token_ids ss es = .error .InvalidInput ↔
      token_ids.length = 0 ∨ ss.length ≠ token_ids.length ∨
        es.length ≠ token_ids.length) ∧
    (∀ p : Nat × Nat, extract_span token_ids ss es = .ok p →
      p = (argmax ss, argmax es + 1) ∧ token_ids.length ≠ 0 ∧
        ss.length = token_ids.length ∧ es.length = token_ids.length) := by
  unfold extract_span
  by_cases hc : token_ids.length = 0 ∨ ss.length ≠ token_ids.length ∨
      es.length ≠ token_ids.length
  · rw [if_pos hc]
    refine ⟨⟨fun _ => hc, fun _ => rfl⟩, ?_⟩
    intro p hp
    cases hp
  · rw [if_neg hc]
    push_neg at hc
    refine ⟨⟨fun h => ?_, fun h => ?_⟩, ?_⟩
    · simp at h
    · rcases h with h | h | h
      · exact absurd h hc.1
      · exact absurd hc.2.1 h
      · exact absurd hc.2.2 h
    · intro p hp
      have hp' : (argmax ss, argmax es + 1) = p := by
        injection hp
      exact ⟨hp'.symm, hc.1, hc.2.1, hc.2.2⟩

/-- Witness for C2: the spec's mismatched-length example — token_ids of
length 5 with start_scores of length 4 — yields `InvalidInput`. -/
theorem C2_invalid_input_iff_witness :
    extract_span [1, 2, 3, 4, 5] [1, 1, 1, 1] [1, 1, 1, 1, 1] =
      .error .InvalidInput :=
  (C2_invalid_input_iff [1, 2, 3, 4, 5] [1, 1, 1, 1] [1, 1, 1, 1, 1]).1.mpr
    (by norm_num)

/-- Shared bounds lemma: with N ≥ 1 and score vectors of length N, the
computed indices satisfy `start_index < N`, `0 < end_index_exclusive` and
`end_index_exclusive ≤ N`. -/
theorem span_bounds (input_ids : List Int) (ss es : List ℚ) (N : Nat)
    (hN : 1 ≤ N) (hs : ss.length = N) (he : es.length = N) :
    (answer_question_core input_ids ss es).1 < N ∧
    0 < (answer_question_core input_ids ss es).2.1 ∧
    (answer_question_core input_ids ss es).2.1 ≤ N := by
  have hs' : ss ≠ [] := by
    intro hnil
    rw [hnil] at hs
    simp at hs
    omega
  have he' : es ≠ [] := by
    intro hnil
    rw [hnil] at he
    simp at he
    omega
  have h1 : argmax ss < N := hs ▸ argmax_lt_length ss hs'
  have h2 : argmax es < N := he ▸ argmax_lt_length es he'
  refine ⟨h1, Nat.succ_pos _, ?_⟩
  show argmax es + 1 ≤ N
  omega

/-- C3: for every N ≥ 1 and score vectors of length N, the extractor
returns `0 ≤ start_index < N` and `0 < end_index_exclusive ≤ N`. -/
theorem C3_index_bounds (input_ids : List Int) (ss es : List ℚ) (N : Nat)
    (hN : 1 ≤ N) (hs : ss.length = N) (he : es.length = N) :
    (answer_question_core input_ids ss es).1 < N ∧
    0 < (answer_question_core input_ids ss es).2.1 ∧
    (answer_question_core input_ids ss es).2.1 ≤ N :=
  span_bounds input_ids ss es N hN hs he

/-- Witness for C3 at N = 3. -/
theorem C3_index_bounds_witness :
    (answer_question_core [5, 6, 7] [0.1, 0.2, 0.9] [0.3, 0.4, 0.5]).1 < 3 ∧
    0 < (answer_question_core [5, 6, 7] [0.1, 0.2, 0.9] [0.3, 0.4, 0.5]).2.1 ∧
    (answer_question_core [5, 6, 7] [0.1, 0.2, 0.9] [0.3, 0.4, 0.5]).2.1 ≤ 3 :=
  C3_index_bounds [5, 6, 7] [0.1, 0.2, 0.9] [0.3, 0.4, 0.5] 3
    (by norm_num) (by norm_num) (by norm_num)

/-- C4: the extractor computes `start_index = argmax start_scores` and
`end_index_exclusive = argmax end_scores + 1`, where `argmax` picks the
maximum value and breaks ties at the lowest index: every entry is at most
the value at the returned index, every entry strictly before the returned
index is strictly smaller, and the spec's tie-break example
`[0.1, 0.9, 0.9, 0.2]` yields index 1, not 2. -/
theorem C4_argmax_first_max (input_ids : List Int) (ss es : List ℚ) :
    (answer_question_core input_ids ss es).1 = argmax ss ∧
    (answer_question_core input_ids ss es).2.1 = argmax es + 1 ∧
    (∀ j, j < ss.length → ss.getD j 0 ≤ ss.getD (argmax ss) 0) ∧
    (∀ j, j < argmax ss → ss.getD j 0 < ss.getD (argmax ss) 0) ∧
    (∀ j, j < es.length → es.getD j 0 ≤ es.getD (argmax es) 0) ∧
    (∀ j, j < argmax es → es.getD j 0 < es.getD (argmax es) 0) ∧
    argmax [0.1, 0.9, 0.9, 0.2] = 1 :=
  ⟨rfl, rfl, argmax_is_max ss, argmax_first_occurrence ss,
    argmax_is_max es, argmax_first_occurrence es, by norm_num [argmax]⟩

/-- Witness for C4: the tie-break example, obtained by instantiating the
theorem. -/
theorem C4_argmax_first_max_witness :
    argmax [0.1, 0.9, 0.9, 0.2] = 1 :=
  (C4_argmax_first_max [] [] []).2.2.2.2.2.2

/-- C5 counterexample: the claim that every produced span satisfies
`start_index < end_index_exclusive` fails on the code — on the spec's own
degenerate example the extractor produces the inverted pair `(2, 1)`. -/
theorem C5_counterexample :
    ¬ ((answer_question_core [10, 20, 30] [0.1, 0.2, 0.9] [0.9, 0.2, 0.1]).1 <
       (answer_question_core [10, 20, 30] [0.1, 0.2, 0.9] [0.9, 0.2, 0.1]).2.1) := by
  norm_num [answer_question_core, argmax]

/-- C5 (amended): every produced span satisfies the bound constraints
`0 ≤ start_index < N` and `0 < end_index_exclusive ≤ N`; the pair is not
guaranteed to satisfy `start_index < end_index_exclusive`. -/
theorem C5_amended_span_bounds (input_ids : List Int) (ss es : List ℚ) (N : Nat)
    (hN : 1 ≤ N) (hs : ss.length = N) (he : es.length = N) :
    (answer_question_core input_ids ss es).1 < N ∧
    0 < (answer_question_core input_ids ss es).2.1 ∧
    (answer_question_core input_ids ss es).2.1 ≤ N :=
  span_bounds input_ids ss es N hN hs he

/-- Witness for the amended C5, at N = 2. -/
theorem C5_amended_span_bounds_witness :
    (answer_question_core [4, 5] [0.7, 0.3] [0.2, 0.8]).1 < 2 ∧
    0 < (answer_question_core [4, 5] [0.7, 0.3] [0.2, 0.8]).2.1 ∧
    (answer_question_core [4, 5] [0.7, 0.3] [0.2, 0.8]).2.1 ≤ 2 :=
  C5_amended_span_bounds [4, 5] [0.7, 0.3] [0.2, 0.8] 2
    (by norm_num) (by norm_num) (by norm_num)

/-- C6: the answer string is exactly the external detokenization of the
slice `input_ids[start_index:end_index_exclusive]` at the computed
indices, and position j of that slice is exactly token
`start_index + j` of the input when `start_index + j` lies below the
exclusive end — no other tokens contribute. -/
theorem C6_answer_is_detok_of_slice (detok : List Int → String)
    (input_ids : List Int) (ss es : List ℚ) :
    answer_question detok input_ids ss es =
      detok ((input_ids.take (argmax es + 1)).drop (argmax ss)) ∧
    ∀ j : Nat,
      ((answer_question_core input_ids ss es).2.2)[j]? =
        if argmax ss + j < argmax es + 1 then input_ids[argmax ss + j]?
        else none := by
  refine ⟨rfl, ?_⟩
  intro j
  show ((input_ids.take (argmax es + 1)).drop (argmax ss))[j]? = _
  rw [List.getElem?_drop, List.getElem?_take]

/-- Witness for C6 on a concrete run: ids `[11, 22, 33, 44]`, start peak at
index 1, end peak at index 2, so the rendered answer is
`detok [22, 33]`. -/
theorem C6_answer_is_detok_of_slice_witness :
    answer_question (fun l => toString l) [11, 22, 33, 44]
        [0.1, 0.9, 0.2, 0.3] [0.1, 0.2, 0.8, 0.3] =
      toString [(22 : Int), 33] := by
  have h :=
    (C6_answer_is_detok_of_slice (fun l => toString l) [11, 22, 33, 44]
      [0.1, 0.9, 0.2, 0.3] [0.1, 0.2, 0.8, 0.3]).1
  rw [h]
  norm_num [argmax]

/-- C7: span extraction is deterministic — two calls with identical
token ids and score vectors return identical results, both at the level of
the computed triple and of the final rendered answer. -/
theorem C7_deterministic (detok : List Int → String) (t1 t2 : List Int)
    (s1 s2 e1 e2 : List ℚ) (ht : t1 = t2) (hs : s1 = s2) (he : e1 = e2) :
    answer_question_core t1 s1 e1 = answer_question_core t2 s2 e2 ∧
    answer_question detok t1 s1 e1 = answer_question detok t2 s2 e2 := by
  subst ht
  subst hs
  subst he
  exact ⟨rfl, rfl⟩

/-- Witness for C7 at a concrete input. -/
theorem C7_deterministic_witness :
    answer_question_core [1, 2] [0.4, 0.6] [0.5, 0.5] =
      answer_question_core [1, 2] [0.4, 0.6] [0.5, 0.5] :=
  (C7_deterministic (fun _ => "") [1, 2] [1, 2] [0.4, 0.6] [0.4, 0.6]
    [0.5, 0.5] [0.5, 0.5] rfl rfl rfl).1

/-- C8: on a single-token input (N = 1) the extractor returns `(0, 1)` and
the slice is the whole one-token sequence, for every pair of score
values. -/
theorem C8_single_token (x : Int) (s e : ℚ) :
    answer_question_core [x] [s] [e] = (0, 1, [x]) :=
  rfl

/-- C9: the computed indices depend only on the score vectors, never on
the token ids — two calls with identical scores but different token ids of
the same length return the same index pair. -/
theorem C9_indices_ignore_token_ids (t1 t2 : List Int) (ss es : List ℚ)
    (h : t1.length = t2.length) :
    (answer_question_core t1 ss es).1 = (answer_question_core t2 ss es).1 ∧
    (answer_question_core t1 ss es).2.1 = (answer_question_core t2 ss es).2.1 :=
  ⟨rfl, rfl⟩

/-- Witness for C9: different token ids, same scores, same indices. -/
theorem C9_indices_ignore_token_ids_witness :
    (answer_question_core [7, 8, 9] [0.1, 0.8, 0.1] [0.1, 0.1, 0.8]).1 =
      (answer_question_core [100, 200, 300] [0.1, 0.8, 0.1] [0.1, 0.1, 0.8]).1 ∧
    (answer_question_core [7, 8, 9] [0.1, 0.8, 0.1] [0.1, 0.1, 0.8]).2.1 =
      (answer_question_core [100, 200, 300] [0.1, 0.8, 0.1] [0.1, 0.1, 0.8]).2.1 :=
  C9_indices_ignore_token_ids [7, 8, 9] [100, 200, 300]
    [0.1, 0.8, 0.1] [0.1, 0.1, 0.8] (by norm_num)

/-- C10: the returned span is non-degenerate (`start < end`) exactly when
the first-occurrence argmax of the end scores is at or after the
first-occurrence argmax of the start scores. -/
theorem C10_degenerate_iff (input_ids : List Int) (ss es : List ℚ)
    (hs : ss ≠ []) (he : es ≠ []) :
    ((answer_question_core input_ids ss es).1 <
        (answer_question_core input_ids ss es).2.1 ↔
      argmax ss ≤ argmax es) := by
  show argmax ss < argmax es + 1 ↔ argmax ss ≤ argmax es
  omega

/-- Witness for C10: start peak at 0, end peak at 1 gives the
non-degenerate span `(0, 2)`. -/
theorem C10_degenerate_iff_witness :
    ((answer_question_core [3, 4] [0.9, 0.1] [0.1, 0.9]).1 <
        (answer_question_core [3, 4] [0.9, 0.1] [0.1, 0.9]).2.1 ↔
      argmax [0.9, 0.1] ≤ argmax [0.1, 0.9]) :=
  C10_degenerate_iff [3, 4] [0.9, 0.1] [0.1, 0.9]
    (List.cons_ne_nil _ _) (List.cons_ne_nil _ _)

end BertQA
